import Mathlib

/-!
Verification development for the `racoon-analyse-gps` script
(`racoon-analyse-gps.py`). The script reads a GPS track log in one of two
file formats (`.gpx` waypoints or a fixed-column delimited `.txt`), splits
the records into day and night buckets by wall-clock time of day, and plots
them. This file gives a shallow embedding of the script's data flow:

  * `convert_comment_to_datetime` — the comment-string timestamp parser;
  * `gpx_importer` — the waypoint importer;
  * `txt_importer` — the delimited-text importer (`pd.read_csv` with
    `usecols=[2,4,5,6]`, `na_values=[0.0]`, then `dropna`, then the
    date/time combination);
  * `df_day` / `df_night` — the day/night classifier
    (`DataFrame.between_time` with its default inclusive endpoints);
  * `mainRun` — the entry point's dispatch on the filename suffix.

Machine floats are modelled as rationals (all values in play are exact
decimals), timestamps as explicit calendar structures, and fallible code
returns `Option` (with `none` for an uncaught fault).
-/

namespace RacoonGps

/-! ### Characters, digits, and low-level splitting -/

/-- Numeric value of a decimal digit character. -/
def digitVal (c : Char) : Nat := c.toNat - 48

/-- Natural number denoted by a list of decimal digit characters. -/
def natOfDigits (cs : List Char) : Nat :=
  cs.foldl (fun n c => n * 10 + digitVal c) 0

/-- Parse a nonempty all-digit character list as a natural number. -/
def parseNatCs (cs : List Char) : Option Nat :=
  if cs.isEmpty then none
  else if cs.all Char.isDigit then some (natOfDigits cs) else none

/-- Split a character list on a separator character, keeping empty pieces,
as Python `str.split(sep)` does for an explicit separator. -/
def splitOnChar (sep : Char) : List Char → List (List Char)
  | [] => [[]]
  | c :: cs =>
    if c = sep then [] :: splitOnChar sep cs
    else
      match splitOnChar sep cs with
      | t :: ts => (c :: t) :: ts
      | [] => [[c]]

/-- Whitespace tokenizer: Python `str.split()` with no argument splits on
runs of whitespace and drops empty tokens. The accumulator holds the
current token reversed. -/
def splitWsAux : List Char → List Char → List (List Char)
  | [], acc => if acc.isEmpty then [] else [acc.reverse]
  | c :: cs, acc =>
    if c.isWhitespace then
      if acc.isEmpty then splitWsAux cs []
      else acc.reverse :: splitWsAux cs []
    else splitWsAux cs (c :: acc)

/-- Model of Python `comment.split()` (whitespace tokenization). -/
def pySplit (s : String) : List String :=
  (splitWsAux s.toList []).map String.mk

/-- Parse a plain decimal numeral (optional sign, digits, optional
fractional part) as an exact rational, modelling the numeric conversion
`pd.read_csv` applies to numeric cells. Exponent forms are outside the
data format and are not modelled. -/
def parseDecimal (s : String) : Option Rat :=
  let go : List Char → Option Rat := fun body =>
    match splitOnChar '.' body with
    | [ip] => (parseNatCs ip).map fun n => mkRat (Int.ofNat n) 1
    | [ip, fp] =>
      if ip.isEmpty && fp.isEmpty then none
      else if (ip.all Char.isDigit) && (fp.all Char.isDigit) then
        some (mkRat (Int.ofNat (natOfDigits ip * 10 ^ fp.length + natOfDigits fp))
          (10 ^ fp.length))
      else none
    | _ => none
  match s.toList with
  | '-' :: body => (go body).map fun q => mkRat (Int.neg q.num) q.den
  | '+' :: body => go body
  | body => go body

/-! ### Calendar arithmetic -/

/-- Gregorian leap-year test. -/
def isLeap (y : Nat) : Bool :=
  y % 4 == 0 && (y % 100 != 0 || y % 400 == 0)

/-- Number of days in a month. -/
def daysInMonth (y m : Nat) : Nat :=
  if m = 2 then (if isLeap y then 29 else 28)
  else if m = 4 ∨ m = 6 ∨ m = 9 ∨ m = 11 then 30
  else 31

/-- Calendar date. -/
structure Date where
  year : Nat
  month : Nat
  day : Nat
deriving DecidableEq

/-- Calendar date validity. -/
def validDate (y m d : Nat) : Bool :=
  1 ≤ m && m ≤ 12 && 1 ≤ d && d ≤ daysInMonth y m

/-- Successor day in the calendar. -/
def nextDay (d : Date) : Date :=
  if d.day < daysInMonth d.year d.month then ⟨d.year, d.month, d.day + 1⟩
  else if d.month < 12 then ⟨d.year, d.month + 1, 1⟩
  else ⟨d.year + 1, 1, 1⟩

/-- Add a number of days to a date. -/
def addDays (d : Date) : Nat → Date
  | 0 => d
  | n + 1 => nextDay (addDays d n)

/-- Calendar timestamp: a date plus a wall-clock time of day. This models
the (timezone-naive, second-resolution) datetimes the script works with. -/
structure DateTime where
  date : Date
  hour : Nat
  minute : Nat
  second : Nat
deriving DecidableEq

/-! ### Date, time and timedelta parsing

Models of the `dateutil.parser.parse(..., dayfirst=True)`,
`pd.to_datetime(..., dayfirst=True)` and `pd.to_timedelta` calls,
restricted to the numeric `D/M/YYYY` slash dates and `H:M[:S]` clock
strings of this log format. -/

/-- Parse a slash-separated numeric date under day-first interpretation:
for `a/b/y`, prefer day `a`, month `b`; when `b` cannot be a month but `a`
can, swap. The chosen day must fit the chosen month. -/
def parseDateDayFirst (s : String) : Option Date :=
  match splitOnChar '/' s.toList with
  | [a, b, c] =>
    match parseNatCs a, parseNatCs b, parseNatCs c with
    | some x, some y, some yr =>
      let (d, m) := if y ≤ 12 then (x, y) else (y, x)
      if validDate yr m d then some ⟨yr, m, d⟩ else none
    | _, _, _ => none
  | _ => none

/-- Parse a clock string `H:M:S` or `H:M` as a wall-clock time of day. -/
def parseTimeOfDay (s : String) : Option (Nat × Nat × Nat) :=
  match splitOnChar ':' s.toList with
  | [h, m, sec] =>
    match parseNatCs h, parseNatCs m, parseNatCs sec with
    | some hh, some mm, some ss =>
      if hh ≤ 23 && mm ≤ 59 && ss ≤ 59 then some (hh, mm, ss) else none
    | _, _, _ => none
  | [h, m] =>
    match parseNatCs h, parseNatCs m with
    | some hh, some mm =>
      if hh ≤ 23 && mm ≤ 59 then some (hh, mm, 0) else none
    | _, _ => none
  | _ => none

/-- Parse a clock-style duration `H:M:S` as a number of seconds (hours are
unbounded in a timedelta), modelling `pd.to_timedelta`. -/
def parseTimedelta (s : String) : Option Nat :=
  match splitOnChar ':' s.toList with
  | [h, m, sec] =>
    match parseNatCs h, parseNatCs m, parseNatCs sec with
    | some hh, some mm, some ss =>
      if mm ≤ 59 && ss ≤ 59 then some (hh * 3600 + mm * 60 + ss) else none
    | _, _, _ => none
  | _ => none

/-- Timestamp at a given number of seconds after midnight of a date
(rolling the date over for durations of a day or more), modelling the
addition of a `Timedelta` to a midnight `Timestamp`. -/
def dateAtSeconds (d : Date) (s : Nat) : DateTime :=
  ⟨addDays d (s / 86400), s % 86400 / 3600, s % 86400 % 3600 / 60, s % 60⟩

/-- Model of `dateutil.parser.parse(s, dayfirst=True)` on the
`"<date> <time>"` strings this script builds: tokenize on whitespace and
read a day-first date followed by a time of day. -/
def dateutilParse (s : String) : Option DateTime :=
  match pySplit s with
  | [d, t] =>
    match parseDateDayFirst d, parseTimeOfDay t with
    | some dd, some tt => some ⟨dd, tt.1, tt.2.1, tt.2.2⟩
    | _, _ => none
  | _ => none

/-- Space separator used when gluing the date and time tokens. -/
def spaceStr : String := " "

/-- Model of `convert_comment_to_datetime`: split the comment on
whitespace, take the tokens at indices 2 and 4, glue them with a space and
parse day-first. An out-of-range index or a parse failure is an uncaught
fault, modelled as `none`. -/
def convert_comment_to_datetime (comment : String) : Option DateTime :=
  match (pySplit comment)[2]?, (pySplit comment)[4]? with
  | some date, some time => dateutilParse (date ++ spaceStr ++ time)
  | _, _ => none

/-! ### Track records and the gpx importer -/

/-- One GPS fix, as both importers produce it: longitude, latitude,
optional altitude, timestamp. Floats are modelled as exact rationals. -/
structure TrackRecord where
  lon : Rat
  lat : Rat
  alt : Option Rat
  time : DateTime
deriving DecidableEq

/-- One waypoint of a parsed gpx document, with the fields the script
reads: `point.longitude`, `point.latitude`, `point.elevation` (optional in
gpx) and `point.comment`. -/
structure Waypoint where
  longitude : Rat
  latitude : Rat
  elevation : Option Rat
  comment : String
deriving DecidableEq

/-- Model of `gpx_importer`: one record is appended per waypoint, in file
order, with no filtering; a comment whose timestamp fails to parse is an
uncaught fault that aborts the whole import (`none`). -/
def gpx_importer : List Waypoint → Option (List TrackRecord)
  | [] => some []
  | p :: ps =>
    match convert_comment_to_datetime p.comment with
    | none => none
    | some dt =>
      match gpx_importer ps with
      | none => none
      | some rs => some (⟨p.longitude, p.latitude, p.elevation, dt⟩ :: rs)

/-! ### The delimited-text importer

Model of `txt_importer`: `pd.read_csv(header=None, names=[date,time,lon,
lat], usecols=[2,4,5,6], na_values=[0.0])` followed by `dropna()`, then
`to_datetime(date, dayfirst=True)` + `to_timedelta(time)` addition. A row
is a list of cell strings (the comma-splitting layer of `read_csv`;
quoting is not modelled, and a row too short for `usecols` is a parse
fault). -/

/-- Default NA tokens `read_csv` recognizes (the ones relevant here; the
empty string is the representation of a missing field). -/
def defaultNaTokens : List String :=
  [ "", "NA", "NaN", "nan", "NULL", "null", "N/A", "n/a" ]

/-- String form of the float sentinel. -/
def zeroDotZeroStr : String := "0.0"

/-- Integer string form of the float sentinel. -/
def zeroStr : String := "0"

/-- Cell matches the `na_values=[0.0]` sentinel: pandas matches both the
string forms of the float and any numeric cell whose parsed value equals
`0.0`. -/
def cellIsSentinel (c : String) : Bool :=
  c == zeroDotZeroStr || c == zeroStr || parseDecimal c == some 0

/-- Cell is recognized as missing: a default NA token or the `0.0`
sentinel added through `na_values`. -/
def cellIsNA (c : String) : Bool :=
  defaultNaTokens.contains c || cellIsSentinel c

/-- Projection of one raw row to the read columns
(2 = date, 4 = time, 5 = lon, 6 = lat). -/
def projectRow (row : List String) : Option (String × String × String × String) :=
  match row[2]?, row[4]?, row[5]?, row[6]? with
  | some d, some t, some lo, some la => some (d, t, lo, la)
  | _, _, _, _ => none

/-- Projection of every row; any failure is a parse fault. -/
def projectRows : List (List String) → Option (List (String × String × String × String))
  | [] => some []
  | r :: rs =>
    match projectRow r, projectRows rs with
    | some p, some ps => some (p :: ps)
    | _, _ => none

/-- Row (already projected) has a missing value in some read column;
`dropna()` removes exactly these rows. -/
def rowIsNA (c : String × String × String × String) : Bool :=
  cellIsNA c.1 || cellIsNA c.2.1 || cellIsNA c.2.2.1 || cellIsNA c.2.2.2

/-- Raw row carries the `0.0` sentinel in a read column. -/
def rowHasSentinel (row : List String) : Bool :=
  [2, 4, 5, 6].any fun i =>
    match row[i]? with
    | some c => cellIsSentinel c
    | none => false

/-- Conversion of one surviving row into a track record: day-first date
parse, clock-duration parse, numeric longitude/latitude; any failure is an
uncaught fault. The text format carries no altitude. -/
def buildTxtRecord (c : String × String × String × String) : Option TrackRecord :=
  match parseDateDayFirst c.1, parseTimedelta c.2.1,
        parseDecimal c.2.2.1, parseDecimal c.2.2.2 with
  | some d, some secs, some lo, some la =>
    some ⟨lo, la, none, dateAtSeconds d secs⟩
  | _, _, _, _ => none

/-- Conversion of every surviving row, in order. -/
def buildTxtRecords : List (String × String × String × String) → Option (List TrackRecord)
  | [] => some []
  | c :: cs =>
    match buildTxtRecord c, buildTxtRecords cs with
    | some r, some rs => some (r :: rs)
    | _, _ => none

/-- Model of `txt_importer`: project the read columns, drop the NA rows,
convert the rest. -/
def txt_importer (rows : List (List String)) : Option (List TrackRecord) :=
  match projectRows rows with
  | none => none
  | some projected => buildTxtRecords (projected.filter fun c => !rowIsNA c)

/-- Split a text line on commas, the cell layer of the delimited format. -/
def splitCommas (s : String) : List String :=
  (splitOnChar ',' s.toList).map String.mk

/-! ### The day/night classifier -/

/-- Wall-clock time of day of a timestamp, in seconds after midnight. -/
def timeOfDaySecs (dt : DateTime) : Nat :=
  dt.hour * 3600 + dt.minute * 60 + dt.second

/-- Model of `DataFrame.between_time(start, stop)` with its default
`include_start=True, include_end=True`: when `start ≤ stop` keep the rows
whose time of day lies in the closed interval `[start, stop]`; when
`start > stop` the window wraps midnight and keeps the rows with time of
day `≥ start` or `≤ stop`. Row order is preserved. -/
def between_time (df : List TrackRecord) (start stop : Nat) : List TrackRecord :=
  if start ≤ stop then
    df.filter fun r => decide (start ≤ timeOfDaySecs r.time) && decide (timeOfDaySecs r.time ≤ stop)
  else
    df.filter fun r => decide (start ≤ timeOfDaySecs r.time) || decide (timeOfDaySecs r.time ≤ stop)

/-- Day bucket of `main`: `df.between_time(time(hour=10), time(hour=18))`. -/
def df_day (df : List TrackRecord) : List TrackRecord :=
  between_time df 36000 64800

/-- Night bucket of `main`: `df.between_time(time(hour=18), time(hour=10))`. -/
def df_night (df : List TrackRecord) : List TrackRecord :=
  between_time df 64800 36000

/-! ### The entry point -/

/-- Model of Python `str.endswith` (case-sensitive, character-based):
the suffix's characters must be the final characters of the string. -/
def pyEndsWith (s suffix : String) : Bool :=
  List.isSuffixOf suffix.toList s.toList

/-- Extension of the gpx dispatch branch. -/
def gpxExt : String := ".gpx"

/-- Extension of the txt dispatch branch. -/
def txtExt : String := ".txt"

/-- Directory separator recognized by `os.path`. -/
def pathSep : Char := '/'

/-- Index right after the last directory separator, the start of the
basename. -/
def basenameStart (cs : List Char) : Nat :=
  (List.range cs.length).foldl
    (fun acc i => if cs.getD i ' ' = pathSep then i + 1 else acc) 0

/-- Index of the extension dot `os.path.splitext` splits at: the last dot
in the basename that has a non-dot character of the basename before it
(leading dots of a basename never start an extension). -/
def splitextDot (cs : List Char) : Option Nat :=
  (List.range cs.length).foldl
    (fun acc i =>
      if cs.getD i ' ' = '.' &&
         ((List.range i).any fun j =>
           decide (basenameStart cs ≤ j) && !(cs.getD j ' ' = '.')) then
        some i
      else acc)
    none

/-- Model of `os.path.splitext`: split the path at the extension dot. -/
def splitext (s : String) : String × String :=
  let cs := s.toList
  match splitextDot cs with
  | none => (s, String.mk [])
  | some i => (String.mk (cs.take i), String.mk (cs.drop i))

/-- Single-quote character used by Python `repr` of a string. -/
def squote : Char := Char.ofNat 39

/-- Opening text of the dispatch error message, up to the tuple `repr`. -/
def errPre : String := "Error: No importer for filetype \"("

/-- Separator between the two tuple components in the message. -/
def errMid : String := ", "

/-- Closing text of the dispatch error message. -/
def errPost : String := ")\""

/-- Quote string wrapping each tuple component. -/
def sqS : String := String.singleton squote

/-- Error message `main` prints for an unsupported extension:
`'Error: No importer for filetype "{}"'.format(os.path.splitext(name))`,
where formatting a pair of strings yields `('root', '.ext')`. -/
def errMsg (name : String) : String :=
  errPre ++ sqS ++ (splitext name).1 ++ sqS ++ errMid ++
    sqS ++ (splitext name).2 ++ sqS ++ errPost

/-- Content of the input file, as the relevant parser would see it: a gpx
document is its waypoint list, a txt file its list of comma-split rows. -/
inductive FileContent where
  | gpxData (wps : List Waypoint) : FileContent
  | txtData (rows : List (List String)) : FileContent
deriving DecidableEq

/-- Outcome of `main`: a rendered pair of buckets, an uncaught fault, or
`sys.exit` with a code after printing a message. -/
inductive MainResult where
  | rendered (day night : List TrackRecord) : MainResult
  | fault : MainResult
  | exited (code : Nat) (message : String) : MainResult
deriving DecidableEq

/-- Model of `main`: dispatch on the filename suffix (case-sensitive
`str.endswith`), import, classify into the two buckets, render. Content
that does not parse in the chosen format is an uncaught fault. An
unsupported suffix prints the error message and exits with status 2
before any importer runs. -/
def mainRun (name : String) (content : FileContent) : MainResult :=
  if pyEndsWith name gpxExt then
    match content with
    | .gpxData wps =>
      match gpx_importer wps with
      | some df => .rendered (df_day df) (df_night df)
      | none => .fault
    | .txtData _ => .fault
  else if pyEndsWith name txtExt then
    match content with
    | .txtData rows =>
      match txt_importer rows with
      | some df => .rendered (df_day df) (df_night df)
      | none => .fault
    | .gpxData _ => .fault
  else .exited 2 (errMsg name)

/-! ## Theorems -/

/-! ### The day/night classifier (claims C1, C2, C10) -/

/-- Day bucket unfolded: the window `10:00 ≤ t ≤ 18:00`, both endpoints
included (pandas' default). -/
lemma df_day_eq (df : List TrackRecord) :
    df_day df = df.filter fun r =>
      decide (36000 ≤ timeOfDaySecs r.time) && decide (timeOfDaySecs r.time ≤ 64800) := by
  simp [df_day, between_time]

/-- Night bucket unfolded: the wrap-around window `t ≥ 18:00` or
`t ≤ 10:00`, both endpoints included (pandas' default). -/
lemma df_night_eq (df : List TrackRecord) :
    df_night df = df.filter fun r =>
      decide (64800 ≤ timeOfDaySecs r.time) || decide (timeOfDaySecs r.time ≤ 36000) := by
  simp [df_night, between_time]

/-- Record used to exhibit the 10:00:00 boundary behaviour. -/
def boundaryRec10 : TrackRecord := ⟨0, 0, none, ⟨⟨2018, 1, 1⟩, 10, 0, 0⟩⟩

/-- Record used to exhibit the 18:00:00 boundary behaviour. -/
def boundaryRec18 : TrackRecord := ⟨0, 0, none, ⟨⟨2018, 1, 1⟩, 18, 0, 0⟩⟩

/-- Claim C1 (counterexample): the two buckets are not disjoint — a record
timestamped exactly 10:00:00 appears in both the day and the night
subset, because `between_time` includes both interval endpoints by
default. -/
theorem C1_counterexample :
    boundaryRec10 ∈ df_day [ boundaryRec10 ] ∧
    boundaryRec10 ∈ df_night [ boundaryRec10 ] := by decide

/-- Claim C1 (amended): for the default day-window boundary pair
(10:00, 18:00), every record of the input lands in at least one of the two
buckets and the union of the buckets as a set equals the input, but the
buckets are disjoint only away from the boundaries: a record lies in both
buckets exactly when its wall-clock time of day is 10:00:00 or 18:00:00
(36000 or 64800 seconds after midnight). -/
theorem C1_day_night_partition (df : List TrackRecord) (r : TrackRecord) :
    (r ∈ df ↔ r ∈ df_day df ∨ r ∈ df_night df) ∧
    (r ∈ df_day df ∧ r ∈ df_night df ↔
      r ∈ df ∧ (timeOfDaySecs r.time = 36000 ∨ timeOfDaySecs r.time = 64800)) := by
  rw [df_day_eq, df_night_eq]
  simp only [List.mem_filter, Bool.and_eq_true, Bool.or_eq_true, decide_eq_true_eq]
  constructor
  · constructor
    · intro hmem
      by_cases h1 : 36000 ≤ timeOfDaySecs r.time
      · by_cases h2 : timeOfDaySecs r.time ≤ 64800
        · exact Or.inl ⟨hmem, h1, h2⟩
        · exact Or.inr ⟨hmem, Or.inl (by omega)⟩
      · exact Or.inr ⟨hmem, Or.inr (by omega)⟩
    · rintro (⟨h, _⟩ | ⟨h, _⟩) <;> exact h
  · constructor
    · rintro ⟨⟨hm, h1, h2⟩, ⟨_, h3 | h3⟩⟩ <;> exact ⟨hm, by omega⟩
    · rintro ⟨hm, h | h⟩ <;> exact ⟨⟨hm, by omega, by omega⟩, hm, by omega⟩

/-- Claim C2 (counterexample): a record timestamped exactly 18:00:00 is
classified into the day subset as well (and into the night subset), so the
half-open reading `[10:00, 18:00)` of the day window is wrong. -/
theorem C2_counterexample :
    boundaryRec18 ∈ df_day [ boundaryRec18 ] ∧
    boundaryRec18 ∈ df_night [ boundaryRec18 ] := by decide

/-- Claim C2 (amended): both window endpoints are included in both
buckets (pandas `between_time` defaults): a record timestamped exactly
10:00:00 is classified into the day subset and also into the night
subset, and a record timestamped exactly 18:00:00 likewise lands in both
subsets. -/
theorem C2_boundary_records (df : List TrackRecord) (r : TrackRecord) (hmem : r ∈ df) :
    (timeOfDaySecs r.time = 36000 → r ∈ df_day df ∧ r ∈ df_night df) ∧
    (timeOfDaySecs r.time = 64800 → r ∈ df_day df ∧ r ∈ df_night df) := by
  rw [df_day_eq, df_night_eq]
  simp only [List.mem_filter, Bool.and_eq_true, Bool.or_eq_true, decide_eq_true_eq]
  constructor <;> intro ht <;> exact ⟨⟨hmem, by omega, by omega⟩, hmem, by omega⟩

/-- Witness for the amended claim C2 at the concrete boundary record. -/
theorem C2_boundary_records_witness :
    boundaryRec10 ∈ df_day [ boundaryRec10 ] ∧
    boundaryRec10 ∈ df_night [ boundaryRec10 ] :=
  (C2_boundary_records [ boundaryRec10 ] boundaryRec10 (by decide)).1 (by decide)

/-- Claim C10: the classifier preserves input order within each bucket —
each bucket is a sublist (subsequence in original relative order, with no
duplication) of the input sequence, since `between_time` is a filter. -/
theorem C10_buckets_are_sublists (df : List TrackRecord) :
    (df_day df).Sublist df ∧ (df_night df).Sublist df := by
  rw [df_day_eq, df_night_eq]
  exact ⟨List.filter_sublist df, List.filter_sublist df⟩

/-! ### The delimited-text importer (claims C4, C5, C8) -/

/-- Single data line of the C4 scenario. -/
def c4line : String := "x,x,01/02/2018,x,14:30:00,10.5,50.2"

/-- Claim C4: importing the single-row file
`x,x,01/02/2018,x,14:30:00,10.5,50.2` yields exactly one record with
lon = 10.5 (the rational 21/2), lat = 50.2 (the rational 251/5), and
timestamp 2018-02-01T14:30:00 (day-first: `01/02` is the 1st of
February). -/
theorem C4_single_row_import :
    txt_importer [ splitCommas c4line ] =
      some [ ⟨mkRat 21 2, mkRat 251 5, none, ⟨⟨2018, 2, 1⟩, 14, 30, 0⟩⟩ ] := by
  decide

/-- Appending rows splits `projectRows` pointwise. -/
lemma projectRows_append (xs ys : List (List String)) :
    projectRows (xs ++ ys) =
      match projectRows xs, projectRows ys with
      | some a, some b => some (a ++ b)
      | _, _ => none := by
  induction xs with
  | nil =>
    simp only [List.nil_append, projectRows]
    cases projectRows ys <;> rfl
  | cons x xs ih =>
    simp only [List.cons_append, projectRows, List.append_eq, ih]
    cases projectRow x <;> cases projectRows xs <;> cases projectRows ys <;> rfl

/-- A row long enough for `usecols` projects successfully, to its cells at
positions 2, 4, 5, 6. -/
lemma projectRow_of_length (row : List String) (h7 : 7 ≤ row.length) :
    ∃ h2 : 2 < row.length, ∃ h4 : 4 < row.length,
      ∃ h5 : 5 < row.length, ∃ h6 : 6 < row.length,
      projectRow row =
        some (row.get ⟨2, h2⟩, row.get ⟨4, h4⟩, row.get ⟨5, h5⟩, row.get ⟨6, h6⟩) := by
  have h2 : 2 < row.length := by omega
  have h4 : 4 < row.length := by omega
  have h5 : 5 < row.length := by omega
  have h6 : 6 < row.length := by omega
  refine ⟨h2, h4, h5, h6, ?_⟩
  simp [projectRow, List.getElem?_eq_getElem h2, List.getElem?_eq_getElem h4,
    List.getElem?_eq_getElem h5, List.getElem?_eq_getElem h6, List.get_eq_getElem]

/-- A raw sentinel cell makes the projected row an NA row. -/
lemma rowIsNA_of_sentinel (row : List String) (h7 : 7 ≤ row.length)
    (hs : rowHasSentinel row = true) (c : String × String × String × String)
    (hp : projectRow row = some c) : rowIsNA c = true := by
  obtain ⟨h2, h4, h5, h6, hp2⟩ := projectRow_of_length row h7
  rw [hp2] at hp
  simp only [Option.some.injEq] at hp
  subst hp
  simp only [rowHasSentinel, List.any_cons, List.any_nil, Bool.or_eq_true,
    Bool.or_false] at hs
  simp only [List.getElem?_eq_getElem h2, List.getElem?_eq_getElem h4,
    List.getElem?_eq_getElem h5, List.getElem?_eq_getElem h6] at hs
  simp only [rowIsNA, cellIsNA, List.get_eq_getElem, Bool.or_eq_true]
  rcases hs with h | h | h | h <;> simp [h]

/-- Claim C5: a row carrying the `0.0` sentinel in a read column (2, 4, 5
or 6) is excluded from the importer's output entirely — importing with the
row present gives the same result as importing without it, whatever the
rest of the row holds. -/
theorem C5_sentinel_row_excluded (pre post : List (List String)) (row : List String)
    (h7 : 7 ≤ row.length) (hs : rowHasSentinel row = true) :
    txt_importer (pre ++ row :: post) = txt_importer (pre ++ post) := by
  obtain ⟨h2, h4, h5, h6, hp⟩ := projectRow_of_length row h7
  have hna := rowIsNA_of_sentinel row h7 hs _ hp
  simp only [List.get_eq_getElem] at hna
  cases hpre : projectRows pre with
  | none =>
    have e1 : projectRows (pre ++ row :: post) = none := by
      rw [projectRows_append, hpre]
    have e2 : projectRows (pre ++ post) = none := by
      rw [projectRows_append, hpre]
    simp [txt_importer, e1, e2]
  | some a =>
    cases hpost : projectRows post with
    | none =>
      have erow : projectRows (row :: post) = none := by
        simp [projectRows, hp, hpost]
      have e1 : projectRows (pre ++ row :: post) = none := by
        rw [projectRows_append, hpre, erow]
      have e2 : projectRows (pre ++ post) = none := by
        rw [projectRows_append, hpre, hpost]
      simp [txt_importer, e1, e2]
    | some b =>
      have erow : projectRows (row :: post) =
          some ((row.get ⟨2, h2⟩, row.get ⟨4, h4⟩, row.get ⟨5, h5⟩, row.get ⟨6, h6⟩) :: b) := by
        simp [projectRows, hp, hpost]
      have e1 : projectRows (pre ++ row :: post) =
          some (a ++ (row.get ⟨2, h2⟩, row.get ⟨4, h4⟩, row.get ⟨5, h5⟩, row.get ⟨6, h6⟩) :: b) := by
        rw [projectRows_append, hpre, erow]
      have e2 : projectRows (pre ++ post) = some (a ++ b) := by
        rw [projectRows_append, hpre, hpost]
      simp [txt_importer, e1, e2, List.filter_append, List.filter_cons,
        List.get_eq_getElem, hna]

/-- Sentinel row used in the C5 witness. -/
def c5row : List String := [ "x", "x", "01/02/2018", "x", "14:30:00", "0.0", "50.2" ]

/-- Witness for claim C5 at a concrete file: the sentinel row disappears
and the remaining good row imports alone. -/
theorem C5_sentinel_row_excluded_witness :
    txt_importer (c5row :: [ splitCommas c4line ]) =
      txt_importer [ splitCommas c4line ] := by
  have h := C5_sentinel_row_excluded [] [ splitCommas c4line ] c5row
    (by decide) (by decide)
  simpa using h

/-- Row with an empty time cell used against claim C8: no read column
holds the `0.0` sentinel, yet the empty field is recognized as missing
and the row is silently dropped. -/
def c8row : List String := [ "x", "x", "01/02/2018", "x", "", "10.5", "50.2" ]

/-- Claim C8 (counterexample): a file whose only row has an empty value in
a read column (and the `0.0` sentinel nowhere) imports without any fault
to an empty table — the row is silently dropped through a path other than
the sentinel rule, because `read_csv` reads an empty field as missing and
`dropna` removes it. -/
theorem C8_counterexample :
    txt_importer [ c8row ] = some [] ∧ rowHasSentinel c8row = false := by
  decide

/-- Converting the surviving rows never changes their number. -/
lemma buildTxtRecords_length (l : List (String × String × String × String))
    (out : List TrackRecord) (h : buildTxtRecords l = some out) :
    out.length = l.length := by
  induction l generalizing out with
  | nil =>
    simp only [buildTxtRecords, Option.some.injEq] at h
    subst h
    rfl
  | cons c cs ih =>
    simp only [buildTxtRecords] at h
    cases hc : buildTxtRecord c with
    | none => rw [hc] at h; exact absurd h (by simp)
    | some r =>
      rw [hc] at h
      cases hcs : buildTxtRecords cs with
      | none => rw [hcs] at h; exact absurd h (by simp)
      | some rs =>
        rw [hcs] at h
        simp only [Option.some.injEq] at h
        subst h
        simp [ih rs hcs]

/-- Claim C8 (amended): the silent-drop filter of the delimited-text
path removes exactly the rows with a missing value in a read column,
where "missing" covers the `0.0` sentinel and every cell `read_csv`
already recognizes as NA — in particular the empty field. Whenever
the importer returns a table at all, its size is the number of projected
rows that survive that NA filter; every surviving row yields a record and
no other row is dropped. -/
theorem C8_drop_is_na_filter (rows : List (List String))
    (projected : List (String × String × String × String))
    (out : List TrackRecord)
    (hp : projectRows rows = some projected)
    (ho : txt_importer rows = some out) :
    out.length = (projected.filter fun c => !rowIsNA c).length := by
  unfold txt_importer at ho
  rw [hp] at ho
  exact buildTxtRecords_length _ _ ho

/-- Projected form of the C8 row. -/
def c8cells : String × String × String × String := ("01/02/2018", "", "10.5", "50.2")

/-- Witness for the amended claim C8 at a concrete two-row file: the row
with the empty cell is dropped, the good row is kept. -/
theorem C8_drop_is_na_filter_witness :
    (1 : Nat) = ([ c8cells, ("01/02/2018", "14:30:00", "10.5", "50.2") ].filter
      fun c => !rowIsNA c).length :=
  C8_drop_is_na_filter [ c8row, splitCommas c4line ]
    [ c8cells, ("01/02/2018", "14:30:00", "10.5", "50.2") ]
    [ ⟨mkRat 21 2, mkRat 251 5, none, ⟨⟨2018, 2, 1⟩, 14, 30, 0⟩⟩ ]
    (by decide) (by decide)

/-! ### The gpx importer (claim C7) -/

/-- Claim C7: whenever the gpx import succeeds it emits exactly one record
per waypoint, in file order and with no filtering: the i-th record's lon,
lat and alt are the i-th waypoint's longitude, latitude and elevation, and
its timestamp is the timestamp parser's result on that waypoint's
comment. -/
theorem C7_gpx_record_per_waypoint (wps : List Waypoint) (rs : List TrackRecord)
    (h : gpx_importer wps = some rs) :
    rs.length = wps.length ∧
    ∀ i (hi : i < wps.length) (hj : i < rs.length),
      (rs.get ⟨i, hj⟩).lon = (wps.get ⟨i, hi⟩).longitude ∧
      (rs.get ⟨i, hj⟩).lat = (wps.get ⟨i, hi⟩).latitude ∧
      (rs.get ⟨i, hj⟩).alt = (wps.get ⟨i, hi⟩).elevation ∧
      convert_comment_to_datetime (wps.get ⟨i, hi⟩).comment = some (rs.get ⟨i, hj⟩).time := by
  induction wps generalizing rs with
  | nil =>
    simp only [gpx_importer, Option.some.injEq] at h
    subst h
    exact ⟨rfl, fun i hi => absurd hi (by simp)⟩
  | cons p ps ih =>
    simp only [gpx_importer] at h
    cases hc : convert_comment_to_datetime p.comment with
    | none => rw [hc] at h; exact absurd h (by simp)
    | some dt =>
      rw [hc] at h
      cases hrec : gpx_importer ps with
      | none => rw [hrec] at h; exact absurd h (by simp)
      | some rs0 =>
        rw [hrec] at h
        simp only [Option.some.injEq] at h
        subst h
        obtain ⟨hlen, hfields⟩ := ih rs0 hrec
        refine ⟨by simp [hlen], ?_⟩
        intro i hi hj
        cases i with
        | zero => exact ⟨rfl, rfl, rfl, hc⟩
        | succ n =>
          simp only [List.length_cons, Nat.add_lt_add_iff_right] at hi hj
          simpa only [List.get_cons_succ] using hfields n hi hj

/-- Comment of the sample waypoint. -/
def sampleComment : String := "made on 01/02/2018 at 14:30:00"

/-- Sample waypoint for the C7 witness. -/
def sampleWp : Waypoint := ⟨mkRat 11 2, mkRat 47 1, some (mkRat 500 1), sampleComment⟩

/-- Record the sample waypoint imports to. -/
def sampleRecs : List TrackRecord :=
  [ ⟨mkRat 11 2, mkRat 47 1, some (mkRat 500 1), ⟨⟨2018, 2, 1⟩, 14, 30, 0⟩⟩ ]

/-- Witness for claim C7 at a concrete one-waypoint file. -/
theorem C7_gpx_record_per_waypoint_witness :
    sampleRecs.length = [ sampleWp ].length :=
  (C7_gpx_record_per_waypoint [ sampleWp ] sampleRecs (by decide)).1

/-! ### The timestamp parser (claims C3, C9) -/

/-- Tokenizing a whitespace-free prefix just rolls it into the
accumulator. -/
lemma splitWsAux_skip_word (xs : List Char)
    (hx : ∀ c ∈ xs, c.isWhitespace = false) :
    ∀ ys acc, splitWsAux (xs ++ ys) acc = splitWsAux ys (xs.reverse ++ acc) := by
  induction xs with
  | nil => intro ys acc; simp
  | cons c cs ih =>
    intro ys acc
    have hc : c.isWhitespace = false := hx c (List.mem_cons_self c cs)
    have hcs : ∀ x ∈ cs, x.isWhitespace = false := fun x hxm =>
      hx x (List.mem_cons_of_mem c hxm)
    simp only [List.cons_append, splitWsAux, hc, Bool.false_eq_true, if_false,
      List.append_eq]
    rw [ih hcs]
    simp [List.append_assoc]

/-- Every token the whitespace tokenizer produces is nonempty and free of
whitespace, as long as the running accumulator is. -/
lemma splitWsAux_token_shape :
    ∀ (l acc : List Char), (∀ c ∈ acc, c.isWhitespace = false) →
      ∀ tok ∈ splitWsAux l acc, tok ≠ [] ∧ ∀ c ∈ tok, c.isWhitespace = false := by
  intro l
  induction l with
  | nil =>
    intro acc hacc tok htok
    simp only [splitWsAux] at htok
    by_cases he : acc.isEmpty
    · simp [he] at htok
    · simp only [he, Bool.false_eq_true, if_false, List.mem_singleton] at htok
      subst htok
      refine ⟨?_, fun c hcm => hacc c (List.mem_reverse.mp hcm)⟩
      simp only [ne_eq, List.reverse_eq_nil_iff]
      simpa [List.isEmpty_iff] using he
  | cons c cs ih =>
    intro acc hacc tok htok
    simp only [splitWsAux] at htok
    by_cases hw : c.isWhitespace
    · simp only [hw, if_true] at htok
      by_cases he : acc.isEmpty
      · simp only [he, if_true] at htok
        exact ih [] (by simp) tok htok
      · simp only [he, Bool.false_eq_true, if_false, List.mem_cons] at htok
        rcases htok with rfl | htok2
        · refine ⟨?_, fun x hxm => hacc x (List.mem_reverse.mp hxm)⟩
          simp only [ne_eq, List.reverse_eq_nil_iff]
          simpa [List.isEmpty_iff] using he
        · exact ih [] (by simp) tok htok2
    · simp only [hw, Bool.false_eq_true, if_false] at htok
      refine ih (c :: acc) ?_ tok htok
      intro x hxm
      rcases List.mem_cons.mp hxm with rfl | hmem
      · simpa using hw
      · exact hacc x hmem

/-- Tokenizing a single nonempty whitespace-free word yields that word. -/
lemma splitWsAux_single (a : List Char) (ha : a ≠ [])
    (hnw : ∀ c ∈ a, c.isWhitespace = false) :
    splitWsAux a [] = [a] := by
  have h := splitWsAux_skip_word a hnw [] []
  simp only [List.append_nil] at h
  rw [h]
  simp [splitWsAux, List.isEmpty_iff, ha]

/-- Tokenizing two nonempty whitespace-free words glued by one space
yields exactly the two words. -/
lemma splitWsAux_glue (a b : List Char) (ha : a ≠ []) (hb : b ≠ [])
    (hanw : ∀ c ∈ a, c.isWhitespace = false)
    (hbnw : ∀ c ∈ b, c.isWhitespace = false) :
    splitWsAux (a ++ ' ' :: b) [] = [a, b] := by
  rw [splitWsAux_skip_word a hanw (' ' :: b) []]
  have hws : (' ' : Char).isWhitespace = true := by decide
  simp [splitWsAux, hws, List.isEmpty_iff, ha, splitWsAux_single b hb hbnw]

/-- String-level gluing: `pySplit` of `d ++ " " ++ t` recovers the two
tokens. -/
lemma pySplit_glue (d t : String) (hd : d.toList ≠ []) (ht : t.toList ≠ [])
    (hdnw : ∀ c ∈ d.toList, c.isWhitespace = false)
    (htnw : ∀ c ∈ t.toList, c.isWhitespace = false) :
    pySplit (d ++ spaceStr ++ t) = [d, t] := by
  unfold pySplit
  have hdata : (d ++ spaceStr ++ t).toList = d.toList ++ ' ' :: t.toList := by
    show (d ++ spaceStr ++ t).data = d.data ++ ' ' :: t.data
    rw [String.data_append, String.data_append]
    have hsp : spaceStr.data = [' '] := rfl
    rw [hsp, List.append_assoc]
    rfl
  rw [hdata, splitWsAux_glue _ _ hd ht hdnw htnw]
  rfl

/-- Every token of `pySplit` is nonempty and whitespace-free. -/
lemma pySplit_token_shape (s tok : String) (h : tok ∈ pySplit s) :
    tok.toList ≠ [] ∧ ∀ c ∈ tok.toList, c.isWhitespace = false := by
  unfold pySplit at h
  obtain ⟨cs, hcs, rfl⟩ := List.mem_map.mp h
  exact splitWsAux_token_shape s.toList [] (by simp) cs hcs

/-- Timestamp parser factored: it is exactly the day-first parse of the
glued tokens at indices 2 and 4. -/
lemma convert_eq_glue (comment d2 t4 : String)
    (h2 : (pySplit comment)[2]? = some d2)
    (h4 : (pySplit comment)[4]? = some t4) :
    convert_comment_to_datetime comment = dateutilParse (d2 ++ spaceStr ++ t4) := by
  unfold convert_comment_to_datetime
  rw [h2, h4]

/-- Day-first parse of a glued pair of token-shaped strings. -/
lemma dateutilParse_glue (d t : String) (hd : d.toList ≠ []) (ht : t.toList ≠ [])
    (hdnw : ∀ c ∈ d.toList, c.isWhitespace = false)
    (htnw : ∀ c ∈ t.toList, c.isWhitespace = false) :
    dateutilParse (d ++ spaceStr ++ t) =
      match parseDateDayFirst d, parseTimeOfDay t with
      | some dd, some tt => some ⟨dd, tt.1, tt.2.1, tt.2.2⟩
      | _, _ => none := by
  unfold dateutilParse
  rw [pySplit_glue d t hd ht hdnw htnw]

/-- Claim C3: for a comment whose whitespace token at index 2 is a
parsable (day-first) date and whose token at index 4 is a parsable time,
the parser returns exactly the day-first parse of the two tokens
concatenated with a space — the timestamp assembled from that date and
that time. -/
theorem C3_tokens_2_and_4 (comment d2 t4 : String) (D : Date)
    (hms : Nat × Nat × Nat)
    (h2 : (pySplit comment)[2]? = some d2)
    (h4 : (pySplit comment)[4]? = some t4)
    (hd : parseDateDayFirst d2 = some D)
    (ht : parseTimeOfDay t4 = some hms) :
    convert_comment_to_datetime comment = dateutilParse (d2 ++ spaceStr ++ t4) ∧
    convert_comment_to_datetime comment = some ⟨D, hms.1, hms.2.1, hms.2.2⟩ := by
  have hglue := convert_eq_glue comment d2 t4 h2 h4
  refine ⟨hglue, ?_⟩
  obtain ⟨hd2ne, hd2nw⟩ := pySplit_token_shape comment d2 (List.getElem?_mem h2)
  obtain ⟨ht4ne, ht4nw⟩ := pySplit_token_shape comment t4 (List.getElem?_mem h4)
  rw [hglue, dateutilParse_glue d2 t4 hd2ne ht4ne hd2nw ht4nw, hd, ht]

/-- Comment used in the C3 witness; its date token is `03/04/2018`. -/
def c3comment : String := "photo taken 03/04/2018 time 12:30:05 ok"

/-- Date token of the C3 witness comment. -/
def c3date : String := "03/04/2018"

/-- Time token of the C3 witness comment. -/
def c3time : String := "12:30:05"

/-- Witness for claim C3: the date token `03/04/2018` parses day-first to
April 3rd, 2018, and the surrounding tokens are ignored. -/
theorem C3_tokens_2_and_4_witness :
    convert_comment_to_datetime c3comment = some ⟨⟨2018, 4, 3⟩, 12, 30, 5⟩ :=
  (C3_tokens_2_and_4 c3comment c3date c3time ⟨2018, 4, 3⟩ (12, 30, 5)
    (by decide) (by decide) (by decide) (by decide)).2

/-- Claim C9: the parser's output depends only on the tokens at indices 2
and 4 — two comments agreeing there (each with tokens at these indices)
parse to the same timestamp. -/
theorem C9_noninterference (ca cb d2 t4 : String)
    (ha2 : (pySplit ca)[2]? = some d2) (ha4 : (pySplit ca)[4]? = some t4)
    (hb2 : (pySplit cb)[2]? = some d2) (hb4 : (pySplit cb)[4]? = some t4) :
    convert_comment_to_datetime ca = convert_comment_to_datetime cb := by
  rw [convert_eq_glue ca d2 t4 ha2 ha4, convert_eq_glue cb d2 t4 hb2 hb4]

/-- Second comment of the C9 witness: same tokens at indices 2 and 4 as
`c3comment`, different everywhere else. -/
def c9other : String := "x  y   03/04/2018 ignored 12:30:05 and more here"

/-- Witness for claim C9 at two concrete comments differing outside the
tokens at indices 2 and 4. -/
theorem C9_noninterference_witness :
    convert_comment_to_datetime c3comment = convert_comment_to_datetime c9other :=
  C9_noninterference c3comment c9other c3date c3time
    (by decide) (by decide) (by decide) (by decide)

/-! ### The entry point (claim C6) -/

/-- Claim C6: for a filename whose suffix is neither `.gpx` nor `.txt`
(case-sensitive `endswith`), `main` exits with status 2 printing the error
message, the message contains the unrecognized extension as computed by
`os.path.splitext`, and the outcome is the same whatever the file holds —
neither importer is invoked. -/
theorem C6_unsupported_extension (name : String) (content : FileContent)
    (hg : pyEndsWith name gpxExt = false) (ht : pyEndsWith name txtExt = false) :
    mainRun name content = MainResult.exited 2 (errMsg name) ∧
    (∃ a b, errMsg name = a ++ (splitext name).2 ++ b) ∧
    ∀ other : FileContent, mainRun name other = mainRun name content := by
  refine ⟨by simp [mainRun, hg, ht], ?_, ?_⟩
  · refine ⟨errPre ++ sqS ++ (splitext name).1 ++ sqS ++ errMid ++ sqS, sqS ++ errPost, ?_⟩
    simp only [errMsg, String.append_assoc]
  · intro other
    simp [mainRun, hg, ht]

/-- Unsupported filename of the C6 witness scenario. -/
def csvName : String := "track.csv"

/-- Witness for claim C6 at the concrete filename `track.csv`. -/
theorem C6_unsupported_extension_witness :
    mainRun csvName (FileContent.txtData []) = MainResult.exited 2 (errMsg csvName) ∧
    (∃ a b, errMsg csvName = a ++ (splitext csvName).2 ++ b) ∧
    ∀ other : FileContent, mainRun csvName other = mainRun csvName (FileContent.txtData []) :=
  C6_unsupported_extension csvName (FileContent.txtData []) (by decide) (by decide)

end RacoonGps
